import Mathlib

/-!
Shallow embedding of `src/0340_LHC_prediction.py`.

The script is a straight-line numpy computation: it builds a grid
`energies_GeV = np.linspace(200, 14000, 1000)`, evaluates a Lorentzian dip
`cross_section_pb = XSEC_BASELINE_PB * (1.0 - dip_depth * lorentzian * 0.033)`,
flags the anomaly zone `(energies_GeV >= 800) & (energies_GeV <= 1000)`, and
assembles a DataFrame with those columns plus `metabit_phi` and
`predicted_byte`.  Exact real arithmetic is modelled with `ℚ` (and `ℝ` for the
`np.sin` based columns); numpy's elementwise array operations are modelled as
functions of the grid index / of the point.
-/

namespace LHC0340

/-- Source constant `PHI_MID = 0.1325` (line 18). -/
def PHI_MID : ℚ := 1325 / 10000

/-- Source constant `FORBIDDENBYTES = {33, 34}` (line 19). -/
def FORBIDDENBYTES : Finset ℤ := {33, 34}

/-- Source constant `LHC_ANOMALY_GEV = 884.0` (line 20). -/
def LHC_ANOMALY_GEV : ℚ := 884

/-- Source constant `XSEC_BASELINE_PB = 100.0` (line 21). -/
def XSEC_BASELINE_PB : ℚ := 100

/-- Source `dip_center_GeV = LHC_ANOMALY_GEV` (line 33). -/
def dip_center_GeV : ℚ := LHC_ANOMALY_GEV

/-- Source `dip_width_GeV = 34.0` (line 34). -/
def dip_width_GeV : ℚ := 34

/-- Source `dip_depth = 80.0` (line 35). -/
def dip_depth : ℚ := 80

/-- The i-th point of `np.linspace low high n` (n evenly spaced points from
low to high inclusive): `low + i * (high - low) / (n - 1)`. -/
def linspace (low high : ℚ) (n : ℕ) (i : ℕ) : ℚ :=
  low + i * (high - low) / ((n : ℚ) - 1)

/-- Source `energies_GeV = np.linspace(200, 14000, 1000)` (line 29), as a
function of the grid index. -/
def energies_GeV (i : ℕ) : ℚ := linspace 200 14000 1000 i

/-- Source `lorentzian = 1 / (1 + ((energies_GeV - dip_center_GeV) /
dip_width_GeV)**2)` (line 38), as a function of the point. -/
def lorentzian (x : ℚ) : ℚ :=
  1 / (1 + ((x - dip_center_GeV) / dip_width_GeV) ^ 2)

/-- Source `cross_section_pb = XSEC_BASELINE_PB * (1.0 - dip_depth *
lorentzian * 0.033)` (line 39), as a function of the point. -/
def cross_section_pb (x : ℚ) : ℚ :=
  XSEC_BASELINE_PB * (1 - dip_depth * lorentzian x * (33 / 1000))

/-- Source `anomaly_zone = (energies_GeV >= 800) & (energies_GeV <= 1000)`
(line 42), as a function of the point. -/
def anomaly_zone (x : ℚ) : Bool :=
  decide (800 ≤ x) && decide (x ≤ 1000)

/-- One row of the source DataFrame `df` (lines 45-52), restricted to the
columns that are exact rational arithmetic (the `np.sin` based columns
`metabit_phi` and `predicted_byte` are modelled separately over `ℝ`). -/
structure CurveRecord where
  sqrt_s_GeV : ℚ
  sqrt_s_TeV : ℚ
  xsec_pb : ℚ
  anomaly_zone : Bool
deriving DecidableEq

/-- The dip-curve generator: the source's straight-line computation
(lines 29-52) with its fixed constants turned into explicit parameters, as
the spec's contract `generate(grid_bounds, grid_size, center, width,
baseline, depth, zone_bounds)` names them.  The `0.033` (`P_G`) factor is
hardcoded in the source formula and stays hardcoded here.  The source
performs no parameter validation of any kind, so neither does this
embedding: it is total. -/
def generate (low high : ℚ) (n : ℕ) (center width baseline depth zlow zhigh : ℚ) :
    List CurveRecord :=
  (List.range n).map fun i : ℕ =>
    let x := low + (i : ℚ) * (high - low) / ((n : ℚ) - 1)
    { sqrt_s_GeV := x
      sqrt_s_TeV := x / 1000
      xsec_pb := baseline * (1 - depth * (1 / (1 + ((x - center) / width) ^ 2)) * (33 / 1000))
      anomaly_zone := decide (zlow ≤ x) && decide (x ≤ zhigh) }

/-- Source `df` (lines 45-52): the dataset built from the fixed constants. -/
def df : List CurveRecord :=
  generate 200 14000 1000 dip_center_GeV dip_width_GeV XSEC_BASELINE_PB dip_depth 800 1000

/-- Source DataFrame column `metabit_phi = PHI_MID + 0.0025 *
np.sin(energies_GeV / LHC_ANOMALY_GEV)` (line 50), over `ℝ` because of
`np.sin`. -/
noncomputable def metabit_phi (x : ℝ) : ℝ :=
  (PHI_MID : ℝ) + (25 / 10000) * Real.sin (x / (LHC_ANOMALY_GEV : ℝ))

/-- Source DataFrame column `predicted_byte = np.floor((PHI_MID + 0.0025 *
np.sin(energies_GeV / LHC_ANOMALY_GEV)) * 255).astype(int)` (line 51). -/
noncomputable def predicted_byte (x : ℝ) : ℤ :=
  ⌊(((PHI_MID : ℝ) + (25 / 10000) * Real.sin (x / (LHC_ANOMALY_GEV : ℝ))) * 255)⌋

/-- Source `regimes = np.where(bytes_data <= 32, 'L', np.where(bytes_data >=
35, 'R', 'G'))` (line 83), as a function of one byte. -/
def regimes (b : ℤ) : Char :=
  if b ≤ 32 then 'L' else if 35 ≤ b then 'R' else 'G'

/-! ### Helper lemmas about the embedded functions -/

/-- Distance of the i-th grid point from the dip center, in closed form. -/
lemma energies_sub_center (i : ℕ) :
    energies_GeV i - dip_center_GeV = (13800 * (i : ℚ) - 683316) / 999 := by
  simp only [energies_GeV, linspace, dip_center_GeV, LHC_ANOMALY_GEV]
  push_cast
  ring


/-- The cross-section in closed form: `100 - 305184 / (1156 + (x - 884)^2)`.
(`305184 = 100 * 80 * 0.033 * 34^2` and `1156 = 34^2`.) -/
lemma xsec_closed (x : ℚ) :
    cross_section_pb x = 100 - 305184 / (1156 + (x - 884) ^ 2) := by
  have h0 : (0 : ℚ) < 1156 + (x - 884) ^ 2 := by positivity
  simp only [cross_section_pb, lorentzian, XSEC_BASELINE_PB, dip_depth,
    dip_center_GeV, dip_width_GeV, LHC_ANOMALY_GEV]
  have h1 : (1 : ℚ) + ((x - 884) / 34) ^ 2 ≠ 0 := by positivity
  field_simp
  ring

/-- The cross-section is monotone in the squared distance from the center. -/
lemma xsec_mono {x y : ℚ} (h : (x - 884) ^ 2 ≤ (y - 884) ^ 2) :
    cross_section_pb x ≤ cross_section_pb y := by
  rw [xsec_closed, xsec_closed]
  have hx : (0 : ℚ) < 1156 + (x - 884) ^ 2 := by positivity
  have hy : (0 : ℚ) < 1156 + (y - 884) ^ 2 := by positivity
  have hdiv : 305184 / (1156 + (y - 884) ^ 2) ≤ 305184 / (1156 + (x - 884) ^ 2) := by
    gcongr
  linarith

/-- The dip center constant unfolds to the literal 884. -/
lemma dip_center_eq : dip_center_GeV = 884 := rfl

/-- The grid point nearest the dip center is index 50, at distance 6684/999
(about 6.69 GeV) from 884. -/
lemma energies_50_sub : energies_GeV 50 - dip_center_GeV = 6684 / 999 := by
  rw [energies_sub_center]
  norm_num

/-- Index 50 minimizes the squared distance from the dip center over all
grid indices. -/
lemma dist_sq_min (i : ℕ) :
    (energies_GeV 50 - dip_center_GeV) ^ 2 ≤ (energies_GeV i - dip_center_GeV) ^ 2 := by
  have hcore : (6684 : ℚ) ^ 2 ≤ (13800 * (i : ℚ) - 683316) ^ 2 := by
    rcases Nat.lt_or_ge i 50 with hi | hi
    · have hi' : (i : ℚ) ≤ 49 := by exact_mod_cast Nat.le_of_lt_succ hi
      have ht : 13800 * (i : ℚ) - 683316 ≤ -7116 := by linarith
      nlinarith [ht, sq_nonneg (13800 * (i : ℚ) - 683316 + 7116)]
    · have hi' : (50 : ℚ) ≤ (i : ℚ) := by exact_mod_cast hi
      have ht : (6684 : ℚ) ≤ 13800 * (i : ℚ) - 683316 := by linarith
      nlinarith [ht, sq_nonneg (13800 * (i : ℚ) - 683316 - 6684)]
  rw [energies_50_sub, energies_sub_center, div_pow, div_pow]
  gcongr

/-- No grid point hits the dip center exactly (884 is strictly between grid
points 49 and 50). -/
lemma energies_ne_center (i : ℕ) : energies_GeV i - dip_center_GeV ≠ 0 := by
  rw [energies_sub_center]
  intro hc
  rw [div_eq_zero_iff] at hc
  rcases hc with hc | hc
  · have hn : (13800 * i : ℕ) = 683316 := by exact_mod_cast sub_eq_zero.mp hc
    omega
  · norm_num at hc

/-- Tail bound for the cross-section: away from the center the deviation
from the baseline 100 is at most 264 * (34 / distance)^2. -/
lemma xsec_tail_bound (x : ℚ) (hx : x ≠ 884) :
    |cross_section_pb x - 100| ≤ 264 * (34 / |x - 884|) ^ 2 := by
  have hd : x - 884 ≠ 0 := sub_ne_zero.mpr hx
  have hd2 : (0 : ℚ) < (x - 884) ^ 2 := by positivity
  rw [xsec_closed]
  have h1 : (100 : ℚ) - 305184 / (1156 + (x - 884) ^ 2) - 100 =
      -(305184 / (1156 + (x - 884) ^ 2)) := by ring
  rw [h1, abs_neg, abs_of_nonneg (by positivity)]
  have h2 : 264 * (34 / |x - 884|) ^ 2 = 305184 / (x - 884) ^ 2 := by
    rw [div_pow, sq_abs]
    ring
  rw [h2, div_le_div_iff (by positivity) hd2]
  nlinarith [hd2]

/-- The dataset has one row per grid point. -/
lemma df_length : df.length = 1000 := by
  simp only [df, generate, List.length_map, List.length_range]

/-- The dataset row at grid index i is the per-point functions applied to
grid point i. -/
lemma df_get (i : ℕ) (h : i < df.length) :
    df.get ⟨i, h⟩ =
      { sqrt_s_GeV := energies_GeV i
        sqrt_s_TeV := energies_GeV i / 1000
        xsec_pb := cross_section_pb (energies_GeV i)
        anomaly_zone := anomaly_zone (energies_GeV i) } := by
  simp only [df, generate, List.get_eq_getElem, List.getElem_map, List.getElem_range]
  rfl

/-- Lower and upper bound for the predicted byte, for every real input:
the sine factor lies in [-1, 1], so the floored value is 33 or 34. -/
lemma predicted_byte_bounds (x : ℝ) :
    33 ≤ predicted_byte x ∧ predicted_byte x ≤ 34 := by
  have hs1 : (-1 : ℝ) ≤ Real.sin (x / ((LHC_ANOMALY_GEV : ℚ) : ℝ)) :=
    Real.neg_one_le_sin _
  have hs2 : Real.sin (x / ((LHC_ANOMALY_GEV : ℚ) : ℝ)) ≤ 1 :=
    Real.sin_le_one _
  have hphi : ((PHI_MID : ℚ) : ℝ) = 1325 / 10000 := by
    rw [PHI_MID]
    push_cast
    norm_num
  unfold predicted_byte
  constructor
  · apply Int.le_floor.mpr
    rw [hphi]
    push_cast
    linarith
  · have h35 : ⌊(((PHI_MID : ℚ) : ℝ) +
        (25 / 10000) * Real.sin (x / ((LHC_ANOMALY_GEV : ℚ) : ℝ))) * 255⌋ < 35 := by
      apply Int.floor_lt.mpr
      rw [hphi]
      push_cast
      linarith
    omega

/-! ### Claim theorems -/

/-- Claim C1: the concrete scenario partly fails on the code.  At the dip
center 884 the curve evaluates to exactly -164, not approximately 20: the
formula multiplies the depth 80 by the extra hardcoded factor 0.033 and by
the baseline 100, a total suppression of 264 instead of 80.  The other two
parts of the scenario do hold: 884 lies in the anomaly zone, and the grid
point nearest 200 (the first grid point, exactly 200) has value within 1
unit of the baseline 100. -/
theorem C1_center_value_is_minus_164 :
    cross_section_pb 884 = -164 ∧ ¬ |cross_section_pb 884 - 20| ≤ 1 ∧
    anomaly_zone 884 = true ∧ energies_GeV 0 = 200 ∧
    |cross_section_pb (energies_GeV 0) - XSEC_BASELINE_PB| ≤ 1 := by
  have h0 : energies_GeV 0 = 200 := by
    simp [energies_GeV, linspace]
  refine ⟨?_, ?_, ?_, h0, ?_⟩
  · rw [xsec_closed]
    norm_num
  · rw [xsec_closed]
    norm_num
  · simp only [anomaly_zone, Bool.and_eq_true, decide_eq_true_eq]
    norm_num
  · rw [h0, xsec_closed, XSEC_BASELINE_PB]
    rw [abs_le]
    norm_num

/-- Claim C2: the spec's Lorentzian form fails on the code.  The code
computes `baseline * (1 - depth * lorentzian(x) * 0.033)`, so at the center
the value is -164 while the spec's form `baseline - depth * lorentzian(x)`
gives 20 there; the two are different. -/
theorem C2_formula_mismatch :
    cross_section_pb dip_center_GeV = -164 ∧
    XSEC_BASELINE_PB - dip_depth * lorentzian dip_center_GeV = 20 ∧
    cross_section_pb dip_center_GeV ≠
      XSEC_BASELINE_PB - dip_depth * lorentzian dip_center_GeV := by
  have hl : lorentzian dip_center_GeV = 1 := by
    simp [lorentzian, dip_center_GeV]
  have hc : cross_section_pb dip_center_GeV = -164 := by
    rw [dip_center_eq, xsec_closed]
    norm_num
  refine ⟨hc, ?_, ?_⟩
  · rw [hl, XSEC_BASELINE_PB, dip_depth]
    norm_num
  · rw [hc, hl, XSEC_BASELINE_PB, dip_depth]
    norm_num

/-- Claim C3 counterexample: no invalid-parameter error exists in the code.
With `width = -1 <= 0` the generator still computes the full 1000-record
dataset instead of aborting before any computation. -/
theorem C3_counterexample_no_validation :
    (generate 200 14000 1000 884 (-1) 100 80 800 1000).length = 1000 ∧
    generate 200 14000 1000 884 (-1) 100 80 800 1000 ≠ [] := by
  have hl : (generate 200 14000 1000 884 (-1) 100 80 800 1000).length = 1000 := by
    simp only [generate, List.length_map, List.length_range]
  refine ⟨hl, ?_⟩
  intro he
  rw [he] at hl
  simp at hl

/-- Claim C3 amended: the source performs no parameter validation at all;
for every parameter combination (valid or not) the generator returns a
complete dataset of grid_size records, and no error is ever raised. -/
theorem C3_amended_total (low high : ℚ) (n : ℕ)
    (center width baseline depth zlow zhigh : ℚ) :
    (generate low high n center width baseline depth zlow zhigh).length = n := by
  simp only [generate, List.length_map, List.length_range]

/-- Claim C4: for every grid point the zone flag is true exactly when the
point lies in [800, 1000], as a pure function of the point and the fixed
zone bounds. -/
theorem C4_zone_flag (i : ℕ) (h : i < 1000) :
    anomaly_zone (energies_GeV i) = true ↔
      800 ≤ energies_GeV i ∧ energies_GeV i ≤ 1000 := by
  simp [anomaly_zone]

/-- Witness for C4 at grid index 44 (the first grid point inside the
zone). -/
theorem C4_zone_flag_witness :
    anomaly_zone (energies_GeV 44) = true ↔
      800 ≤ energies_GeV 44 ∧ energies_GeV 44 ≤ 1000 :=
  C4_zone_flag 44 (by norm_num)

/-- Claim C5: the minimum of the curve over the grid is attained at grid
index 50, the grid point nearest to the center 884, which lies within one
grid spacing (13800/999) of 884. -/
theorem C5_min_at_nearest (i : ℕ) (h : i < 1000) :
    cross_section_pb (energies_GeV 50) ≤ cross_section_pb (energies_GeV i) ∧
    |energies_GeV 50 - dip_center_GeV| ≤ |energies_GeV i - dip_center_GeV| ∧
    |energies_GeV 50 - dip_center_GeV| ≤ (14000 - 200) / 999 := by
  have hsq := dist_sq_min i
  refine ⟨?_, ?_, ?_⟩
  · apply xsec_mono
    rw [dip_center_eq] at hsq
    exact hsq
  · have h1 : |energies_GeV 50 - dip_center_GeV| ^ 2 ≤
        |energies_GeV i - dip_center_GeV| ^ 2 := by
      rw [sq_abs, sq_abs]
      exact hsq
    nlinarith [abs_nonneg (energies_GeV 50 - dip_center_GeV),
      abs_nonneg (energies_GeV i - dip_center_GeV)]
  · rw [energies_50_sub]
    rw [abs_of_nonneg (by norm_num)]
    norm_num

/-- Witness for C5 at grid index 0. -/
theorem C5_min_at_nearest_witness :
    cross_section_pb (energies_GeV 50) ≤ cross_section_pb (energies_GeV 0) ∧
    |energies_GeV 50 - dip_center_GeV| ≤ |energies_GeV 0 - dip_center_GeV| ∧
    |energies_GeV 50 - dip_center_GeV| ≤ (14000 - 200) / 999 :=
  C5_min_at_nearest 0 (by norm_num)

/-- Claim C6: the generator is deterministic.  The embedded computation is a
pure function of its parameters (the source reads no external state, clock
or randomness while building the dataset), so two runs with identical
inputs produce identical datasets. -/
theorem C6_generate_deterministic (low high : ℚ) (n : ℕ)
    (center width baseline depth zlow zhigh : ℚ) :
    generate low high n center width baseline depth zlow zhigh =
      generate low high n center width baseline depth zlow zhigh := rfl

/-- Claim C7: the grid is an ordered sequence of exactly 1000 points, its
first point is 200 and its last is 14000, consecutive points differ by the
constant positive spacing (14000 - 200) / 999, and the sequence is strictly
increasing. -/
theorem C7_grid_shape (i j : ℕ) (hij : i < j) (hj : j < 1000) :
    ((List.range 1000).map energies_GeV).length = 1000 ∧
    energies_GeV 0 = 200 ∧ energies_GeV 999 = 14000 ∧
    (i + 1 < 1000 → energies_GeV (i + 1) - energies_GeV i = (14000 - 200) / 999) ∧
    energies_GeV i < energies_GeV j := by
  refine ⟨by simp, by simp [energies_GeV, linspace], ?_, ?_, ?_⟩
  · simp only [energies_GeV, linspace]
    norm_num
  · intro _
    simp only [energies_GeV, linspace]
    push_cast
    ring
  · have hq : (i : ℚ) < (j : ℚ) := by exact_mod_cast hij
    simp only [energies_GeV, linspace]
    have hp : (0 : ℚ) < (14000 - 200) / ((1000 : ℕ) - 1 : ℚ) := by norm_num
    have := mul_lt_mul_of_pos_right hq hp
    calc 200 + (i : ℚ) * (14000 - 200) / (((1000 : ℕ) : ℚ) - 1)
        = 200 + (i : ℚ) * ((14000 - 200) / (((1000 : ℕ) : ℚ) - 1)) := by ring
      _ < 200 + (j : ℚ) * ((14000 - 200) / (((1000 : ℕ) : ℚ) - 1)) := by
          push_cast at this ⊢
          linarith
      _ = 200 + (j : ℚ) * (14000 - 200) / (((1000 : ℕ) : ℚ) - 1) := by ring

/-- Witness for C7 at the pair of grid indices 0 and 1. -/
theorem C7_grid_shape_witness :
    ((List.range 1000).map energies_GeV).length = 1000 ∧
    energies_GeV 0 = 200 ∧ energies_GeV 999 = 14000 ∧
    (0 + 1 < 1000 → energies_GeV (0 + 1) - energies_GeV 0 = (14000 - 200) / 999) ∧
    energies_GeV 0 < energies_GeV 1 :=
  C7_grid_shape 0 1 (by norm_num) (by norm_num)

/-- Claim C8: every grid point misses the center, and the deviation of the
curve from the baseline 100 is bounded by the constant 264 (which is
baseline * depth * 0.033) times (width / distance-to-center)^2, so the
curve approaches the baseline quadratically in width / distance. -/
theorem C8_baseline_recovery (i : ℕ) (h : i < 1000) :
    energies_GeV i ≠ dip_center_GeV ∧
    |cross_section_pb (energies_GeV i) - XSEC_BASELINE_PB| ≤
      XSEC_BASELINE_PB * dip_depth * (33 / 1000) *
        (dip_width_GeV / |energies_GeV i - dip_center_GeV|) ^ 2 := by
  have hne : energies_GeV i - dip_center_GeV ≠ 0 := energies_ne_center i
  have hx : energies_GeV i ≠ 884 := by
    rw [dip_center_eq] at hne
    exact sub_ne_zero.mp hne
  have hb := xsec_tail_bound (energies_GeV i) hx
  refine ⟨by rw [dip_center_eq]; exact hx, ?_⟩
  rw [dip_center_eq, XSEC_BASELINE_PB, dip_depth, dip_width_GeV]
  have hconst : (100 : ℚ) * 80 * (33 / 1000) = 264 := by norm_num
  rw [hconst]
  exact hb

/-- Witness for C8 at grid index 0. -/
theorem C8_baseline_recovery_witness :
    energies_GeV 0 ≠ dip_center_GeV ∧
    |cross_section_pb (energies_GeV 0) - XSEC_BASELINE_PB| ≤
      XSEC_BASELINE_PB * dip_depth * (33 / 1000) *
        (dip_width_GeV / |energies_GeV 0 - dip_center_GeV|) ^ 2 :=
  C8_baseline_recovery 0 (by norm_num)

/-- Claim C9: the curve is strictly negative at the grid point nearest the
dip center (index 50), and consequently the emitted dataset contains a row
with a negative cross-section value. -/
theorem C9_negative_xsec :
    cross_section_pb (energies_GeV 50) < 0 ∧ ∃ r ∈ df, r.xsec_pb < 0 := by
  have h50 : energies_GeV 50 = 296600 / 333 := by
    simp only [energies_GeV, linspace]
    norm_num
  have hv : cross_section_pb (energies_GeV 50) < 0 := by
    rw [h50, xsec_closed]
    norm_num
  have hlen : (50 : ℕ) < df.length := by
    rw [df_length]
    norm_num
  refine ⟨hv, df.get ⟨50, hlen⟩, List.get_mem df 50 hlen, ?_⟩
  rw [df_get 50 hlen]
  exact hv

/-- Claim C10: for every grid point, the predicted byte lands in the
forbidden set {33, 34}, so the byte-regime classification assigns the
central regime to every point and no point is ever classified into the low
or high regime. -/
theorem C10_bytes_in_gap (i : ℕ) (h : i < 1000) :
    predicted_byte ((energies_GeV i : ℚ) : ℝ) ∈ FORBIDDENBYTES ∧
    regimes (predicted_byte ((energies_GeV i : ℚ) : ℝ)) = 'G' := by
  obtain ⟨h1, h2⟩ := predicted_byte_bounds ((energies_GeV i : ℚ) : ℝ)
  constructor
  · simp only [FORBIDDENBYTES, Finset.mem_insert, Finset.mem_singleton]
    omega
  · unfold regimes
    rw [if_neg (by omega), if_neg (by omega)]

/-- Witness for C10 at grid index 0. -/
theorem C10_bytes_in_gap_witness :
    predicted_byte ((energies_GeV 0 : ℚ) : ℝ) ∈ FORBIDDENBYTES ∧
    regimes (predicted_byte ((energies_GeV 0 : ℚ) : ℝ)) = 'G' :=
  C10_bytes_in_gap 0 (by norm_num)

end LHC0340
